import Mathlib

/-!
Verification of the SQR (Supplier Quality Ratio) dashboard core:
shallow embedding of the aggregation-and-ratio engine and the PBC
(Process Behavior Chart) statistics engine from `SQR_dashboard.py` and
`SQR_Excel_Calculation.py`, together with theorems settling the frozen
claims about them.

Conventions of the embedding:
* pandas dataframes / Python dicts become association lists (`List (κ × β)`),
  whose key order models Python's insertion order;
* Python `None` becomes `Option.none`;
* numpy float division of integer counts becomes `RNum` (`nan`/`inf`/finite ℚ),
  reproducing numpy's `x/0 = inf`, `0/0 = nan` semantics;
* machine floats are modelled by exact rationals (`ℚ`): the claims only
  concern values that are exactly representable and order comparisons.
-/

namespace SQR

/-- First-seen deduplication with an explicit `seen` accumulator: the model of
Python's "append if not already in the list" loops and of `pandas.unique`. -/
def firstSeenAux {α : Type} [DecidableEq α] (seen : List α) : List α → List α
  | [] => []
  | x :: xs => if x ∈ seen then firstSeenAux seen xs else x :: firstSeenAux (x :: seen) xs

/-- First-seen deduplication of a list, keeping first occurrences in order. -/
def firstSeen {α : Type} [DecidableEq α] (l : List α) : List α := firstSeenAux [] l

/-- A numpy floating-point value arising from dividing integer counts:
`nan` for `0/0`, `inf` for `x/0` with `x ≠ 0`, finite rational otherwise. -/
inductive RNum : Type where
  | nan : RNum
  | inf : RNum
  | val : ℚ → RNum
deriving DecidableEq, Repr

/-- `(num/den)*100` with numpy's true-division semantics for integer counts:
division by zero yields `inf` (or `nan` for `0/0`) rather than raising. -/
def pyDivRatio (num den : ℚ) : RNum :=
  if den = 0 then (if num = 0 then RNum.nan else RNum.inf) else RNum.val (num / den * 100)

/-- Round-half-even to the nearest integer, as numpy and Python `round` do. -/
def roundHalfEven (x : ℚ) : ℤ :=
  let n := ⌊x⌋
  let f := x - n
  if f < 1/2 then n
  else if 1/2 < f then n + 1
  else if n % 2 = 0 then n else n + 1

/-- `round(x, 1)`: round-half-even at one decimal place. -/
def round1 (x : ℚ) : ℚ := (roundHalfEven (x * 10) : ℚ) / 10

/-- `pandas.DataFrame.round(1)` on a numpy cell: rounds finite values,
fixes `nan` and `inf`. -/
def roundCell1 : RNum → RNum
  | RNum.nan => RNum.nan
  | RNum.inf => RNum.inf
  | RNum.val q => RNum.val (round1 q)

/-- numpy ordering on non-`nan` cells (`inf` above everything), total so the
sort below is well behaved; the dashboard only sorts columns whose `nan`s
were dropped. -/
def rnumLE : RNum → RNum → Prop
  | RNum.nan, _ => True
  | _, RNum.nan => False
  | _, RNum.inf => True
  | RNum.inf, _ => False
  | RNum.val a, RNum.val b => a ≤ b

instance : DecidableRel rnumLE := by
  intro a b
  cases a <;> cases b <;> simp only [rnumLE] <;> infer_instance

/-! ## PBC statistics engine (`calculate_and_plot_pbc`, dashboard lines 166-186) -/

/-- Python's `abs` on a rational, written so that it evaluates by kernel
reduction. -/
def pyAbs (q : ℚ) : ℚ := if q < 0 then -q else q

/-- `moving_ranges = [0] + [abs(next - cur) for cur, next in zip(counts[:-1], counts[1:])]`. -/
def movingRangesOf (counts : List ℚ) : List ℚ :=
  0 :: ((counts.zip counts.tail).map fun p => pyAbs (p.2 - p.1))

/-- `Series.mean()`: `NaN` (modelled `none`) on an empty series. -/
def meanOf (counts : List ℚ) : Option ℚ :=
  if counts.isEmpty then none else some (counts.sum / counts.length)

/-- The scalar outputs of the PBC computation. -/
structure PBCResult : Type where
  movingRanges : List ℚ
  averageMovingRanges : ℚ
  mean : Option ℚ
  UPL : Option ℚ
  LPL : Option ℚ
  URL : ℚ
deriving DecidableEq, Repr

/-- The PBC formulas of `calculate_and_plot_pbc` (lines 166-186): mean, moving
ranges, `average_moving_ranges = moving_ranges[-1]`,
`UPL = mean + 2.66*amr`, `LPL = mean - 2.66*amr` then `0` if negative else
reassigned to `mean`, `URL = amr * 3.27`. `NaN` arithmetic (empty series)
propagates through the `Option`; `NaN < 0` is false, so `LPL` collapses to
the `NaN` mean there. -/
def pbcStats (counts : List ℚ) : PBCResult :=
  let mrs := movingRangesOf counts
  let amr := mrs.getLastD 0
  let m := meanOf counts
  { movingRanges := mrs
    averageMovingRanges := amr
    mean := m
    UPL := m.map fun x => x + 2.66 * amr
    LPL := m.map fun x => if x - 2.66 * amr < 0 then 0 else x
    URL := amr * 3.27 }

/-- The PBC engine run: pandas raises `ValueError` at
`dmr_per_month['Moving Ranges'] = moving_ranges` (line 172) when the list
length does not match the frame's index length, which happens exactly for an
empty series (`[0]` against 0 rows); `none` models that raise. -/
def pbcEngine (counts : List ℚ) : Option PBCResult :=
  if (movingRangesOf counts).length = counts.length then some (pbcStats counts) else none

/-! ## Temporal key extractor (`generate_unique_list`) -/

/-- `date_string[:4]`. -/
def yearKey (d : String) : String := d.take 4

/-- `date_string[5:7]`. -/
def monthKey (d : String) : String := (d.drop 5).take 2

/-- `generate_unique_list` from `SQR_dashboard.py` (lines 39-54): branches on
the `option` string; both branches take the first four characters of each
unique date string (`date_string[:4]`) — also the `'Month'` branch does —,
collecting first-seen distinct keys. Any other option falls off the end of
the Python function, returning `None`. -/
def generate_unique_list (dates : List String) (option : String) : Option (List String) :=
  if option = "Year" then
    some (firstSeen ((firstSeen dates).map fun date_string => date_string.take 4))
  else if option = "Month" then
    some (firstSeen ((firstSeen dates).map fun date_string => date_string.take 4))
  else none

/-! ## Period counter (`generate_count_dict`) -/

/-- `(df[date_column].str[:4] == year).sum()`. -/
def yearCount (dates : List String) (year : String) : Nat :=
  (dates.filter fun d => yearKey d == year).length

/-- `(df[df[date_column].str[:4]==yr][date_column].str[5:7]==month).sum()`. -/
def monthCount (dates : List String) (yr month : String) : Nat :=
  ((dates.filter fun d => yearKey d == yr).filter fun d => monthKey d == month).length

/-- `generate_count_dict(df, 'Year', col, unique_list)`: one `(year, count)`
entry per requested year, counting records whose first four characters equal
the year. -/
def generate_count_dict_year (dates : List String) (unique_list : List String) :
    List (String × Nat) :=
  unique_list.map fun year => (year, yearCount dates year)

/-- `generate_count_dict(df, 'Month', col, unique_list)`: for each year present
in the data (pandas-`unique` first-seen order), counts per requested month
code of the records of that year. -/
def generate_count_dict_month (dates : List String) (unique_list : List String) :
    List (String × List (String × Nat)) :=
  (firstSeen (dates.map yearKey)).map fun yr =>
    (yr, unique_list.map fun month => (month, monthCount dates yr month))

/-- The hard-coded `unique_months` list of the scripts. -/
def unique_months : List String :=
  ["01", "02", "03", "04", "05", "06", "07", "08", "09", "10", "11", "12"]

/-! ## Year-level ratio (`DMR_PO_perc_yr`) -/

/-- The year-level ratio loop (dashboard lines 236-245 / Excel 165-174): for
each year of `dmrs_years`, `None` when the year is missing from the PO count
dict; otherwise `(DMR count / PO count) * 100`, computed with no zero guard
(numpy semantics: a zero denominator gives `inf`, not a raise). -/
def DMR_PO_perc_yr (dmrs_years : List String)
    (DMRs_yrs_count PO_yrs_count : List (String × Nat)) : List (String × Option RNum) :=
  dmrs_years.map fun year =>
    (year, match PO_yrs_count.lookup year with
      | some po => some (pyDivRatio ((DMRs_yrs_count.lookup year).getD 0 : ℚ) (po : ℚ))
      | none => none)

/-- The assembled year-level pipeline: unique year lists and count dicts built
from the two date columns, then the ratio loop. -/
def DMR_PO_perc_yr_pipeline (dmrDates poDates : List String) : List (String × Option RNum) :=
  let dmrs_years := firstSeen ((firstSeen dmrDates).map yearKey)
  let PO_years := firstSeen ((firstSeen poDates).map yearKey)
  DMR_PO_perc_yr dmrs_years (generate_count_dict_year dmrDates dmrs_years)
    (generate_count_dict_year poDates PO_years)

/-! ## Month-level ratio (`DMR_PO_perc_month`) -/

/-- `sorted(set(DMRs_month_count.keys()) & set(PO_month_count.keys()))`:
the common year keys in ascending string order. -/
def sortedCommonYears (dm pm : List (String × List (String × Nat))) : List String :=
  List.insertionSort (· ≤ ·)
    ((firstSeen (dm.map Prod.fst)).filter fun y => (pm.lookup y).isSome)

/-- One year's inner loop of the month-level ratio calculation (dashboard
lines 258-265 / Excel 188-195): `for month in PO_month_count[year]`, look the
month up in the PO dict (the loop's redundant `if month in ...` membership
test), and store `(DMR count / PO count) * 100` only when the PO count is
non-zero; zero-PO months are omitted with no `None` placeholder. -/
def monthRatioEntries (DMRs_month_count PO_month_count : List (String × List (String × Nat)))
    (year : String) : List (String × ℚ) :=
  ((PO_month_count.lookup year).getD []).filterMap fun mc =>
    match ((PO_month_count.lookup year).getD []).lookup mc.1 with
    | some po_count =>
      if po_count ≠ 0 then
        some (mc.1,
          ((((DMRs_month_count.lookup year).getD []).lookup mc.1).getD 0 : ℚ) / (po_count : ℚ) * 100)
      else none
    | none => none

/-- The month-level ratio loop (dashboard lines 257-266 / Excel 187-196): for
each year common to both month-count dicts, that year's `monthRatioEntries`. -/
def DMR_PO_perc_month (DMRs_month_count PO_month_count : List (String × List (String × Nat))) :
    List (String × List (String × ℚ)) :=
  (sortedCommonYears DMRs_month_count PO_month_count).map fun year =>
    (year, monthRatioEntries DMRs_month_count PO_month_count year)

/-- The assembled month-level pipeline over the two date columns. -/
def DMR_PO_perc_month_pipeline (dmrDates poDates : List String) :
    List (String × List (String × ℚ)) :=
  DMR_PO_perc_month (generate_count_dict_month dmrDates unique_months)
    (generate_count_dict_month poDates unique_months)

/-! ## Presented year/month tables (`df_yr`, `df_month`) -/

/-- Python `str.isdigit`: nonempty and all characters digits. -/
def pyIsDigit (s : String) : Bool := !s.isEmpty && s.data.all Char.isDigit

/-- `df_yr`: the year-ratio dict as a one-row frame restricted to all-digit
year columns and rounded to one decimal
(`df_yr = df_yr[[c for c in df_yr.columns if c.isdigit()]]; df_yr.round(1)`).
A Python `None` cell is `NaN` in the frame and survives rounding, modelled by
mapping `roundCell1` under the `Option`. -/
def df_yr (dmrDates poDates : List String) : List (String × Option RNum) :=
  ((DMR_PO_perc_yr_pipeline dmrDates poDates).filter fun yc => pyIsDigit yc.1).map
    fun yc => (yc.1, yc.2.map roundCell1)

/-- `df_month = pd.DataFrame(DMR_PO_perc_month).round(1)`: every stored month
ratio rounded to one decimal; omitted months stay absent (`NaN` cells). -/
def df_month (dmrDates poDates : List String) : List (String × List (String × ℚ)) :=
  (DMR_PO_perc_month_pipeline dmrDates poDates).map fun yr =>
    (yr.1, yr.2.map fun mc => (mc.1, round1 mc.2))

/-! ## Vendor aggregation (`vendor_DMR_counts` / `vendor_PO_counts` /
`vendor_SQR_ratios`) -/

/-- A raw DMR or PO record: the date column value and the vendor column value. -/
structure SrcRec : Type where
  date : String
  vendor : String
deriving DecidableEq, Repr

/-- The row filter `df['Year'].str.isdigit()` after `Year = date.str[:4]`. -/
def validYearRec (r : SrcRec) : Bool := pyIsDigit (yearKey r.date)

/-- `int(s)` on an all-digit string, written over the character list so that
it evaluates by kernel reduction. -/
def digitsToNat (s : String) : Nat :=
  s.data.foldl (fun n c => n * 10 + (c.toNat - 48)) 0

/-- `int(date[:4])` for a record that passed the digit filter. -/
def recYear (r : SrcRec) : Nat := digitsToNat (yearKey r.date)

/-- One vendor's group of records, after the digit-year row filter. -/
def vendorRecs (recs : List SrcRec) (v : String) : List SrcRec :=
  (recs.filter validYearRec).filter fun r => r.vendor == v

/-- The (vendor → year → count) dict built from one record stream:
`Year = date.str[:4]` digit-filtered and cast to int, then
`groupby(['Year', vendor]).size()`, whose rows are poured into a nested dict
(`vendor_DMR_counts` / `vendor_PO_counts`, Excel lines 210-253). The model
lists each observed vendor once with, per observed year, the size of its
(necessarily non-empty) group. -/
def vendorCounts (recs : List SrcRec) : List (String × List (Nat × Nat)) :=
  (firstSeen ((recs.filter validYearRec).map SrcRec.vendor)).map fun v =>
    (v, (firstSeen ((vendorRecs recs v).map recYear)).map fun y =>
      (y, ((vendorRecs recs v).filter fun r => recYear r == y).length))

/-- One iteration of the vendor-level ratio loop body (Excel lines 263-278)
for the DMR entry `yc = (year, dmr_count)` of vendor `v`: `None` stored when
the vendor/year pair is missing from the PO dict; when present, the ratio is
stored only if the PO count is non-zero, and with a zero count the pair is
silently omitted (no assignment happens). -/
def vendorRatioCell (vendor_PO_counts : List (String × List (Nat × Nat))) (v : String)
    (yc : Nat × Nat) : Option (Nat × Option ℚ) :=
  match vendor_PO_counts.lookup v with
  | some po_years =>
    match po_years.lookup yc.1 with
    | some po_count =>
      if po_count ≠ 0 then some (yc.1, some ((yc.2 : ℚ) / (po_count : ℚ) * 100))
      else none
    | none => some (yc.1, none)
  | none => some (yc.1, none)

/-- The value that `vendorRatioCell` stores under the year key when the PO
count is non-zero or missing: the claim-level description of one vendor-table
cell (`None` when the vendor/year pair is absent from the PO dict, otherwise
the percentage ratio). -/
def vendorRatioVal (vendor_PO_counts : List (String × List (Nat × Nat))) (v : String)
    (yc : Nat × Nat) : Option ℚ :=
  match vendor_PO_counts.lookup v with
  | some poYears =>
    match poYears.lookup yc.1 with
    | some po => some ((yc.2 : ℚ) / (po : ℚ) * 100)
    | none => none
  | none => none

/-- The vendor-level ratio loop (Excel lines 256-278 / dashboard 326-348):
each vendor of the DMR dict gets a slot holding the `vendorRatioCell` results
over its years. -/
def vendor_SQR_ratios (vendor_DMR_counts vendor_PO_counts : List (String × List (Nat × Nat))) :
    List (String × List (Nat × Option ℚ)) :=
  vendor_DMR_counts.map fun vd =>
    (vd.1, vd.2.filterMap (vendorRatioCell vendor_PO_counts vd.1))

/-- The assembled vendor-level pipeline over the two record streams. The
resulting association list is also the content of `df_vendor_SQR_ratios`
(`pd.DataFrame(dict).T` + `reset_index` + `rename`): one row per outer key
(vendor), one column per year, values untouched — in particular **no**
`round` is applied to this table. -/
def df_vendor_SQR_ratios (dmrRecs poRecs : List SrcRec) :
    List (String × List (Nat × Option ℚ)) :=
  vendor_SQR_ratios (vendorCounts dmrRecs) (vendorCounts poRecs)

/-! ## Top-8 bar chart (`generate_SQR_bar_chart`) -/

/-- One year's column of the vendor table with `dropna` applied
(`df_SQR[['Vendor', year]].dropna(subset=[year])`): vendors whose cell for the
year exists and is not `None`/`NaN`, paired with the raw cell value. -/
def vendorYearColumn (df_SQR : List (String × List (Nat × Option ℚ))) (year : Nat) :
    List (String × ℚ) :=
  df_SQR.filterMap fun vr =>
    match vr.2.lookup year with
    | some (some x) => some (vr.1, x)
    | some none => none
    | none => none

/-- `sort_values(by=year, ascending=False).head(8)`: the top-8 rows of the
year's column ranked by the raw (unrounded) ratio values. -/
def top8_SQRs (df_SQR : List (String × List (Nat × Option ℚ))) (year : Nat) :
    List (String × ℚ) :=
  (List.insertionSort (fun a b : String × ℚ => b.2 ≤ a.2) (vendorYearColumn df_SQR year)).take 8

/-- The numeric content of a `'{:.2f}'.format` bar label: the raw value
rounded half-even at two decimal places. -/
def round2 (x : ℚ) : ℚ := (roundHalfEven (x * 100) : ℚ) / 100

/-! ## The dataframe-level PBC call (`calculate_and_plot_pbc`, lines 152-186) -/

/-- A cell of the `Date` column: either the raw string or, after
`pd.to_datetime`, a parsed timestamp (`none` = `NaT`). -/
inductive DateCell : Type where
  | str : String → DateCell
  | dt : Option (Nat × Nat × Nat) → DateCell
deriving DecidableEq, Repr

/-- A row of the raw DMR dataframe passed to `calculate_and_plot_pbc`. -/
structure RawRow : Type where
  date : DateCell
  vendor : String
deriving DecidableEq, Repr

/-- ISO `YYYY-MM-DD` parsing; any other string coerces to `NaT`
(`pd.to_datetime(..., errors='coerce')`, restricted to the string shape the
upstream normalization produces). -/
def parseISO (s : String) : Option (Nat × Nat × Nat) :=
  if pyIsDigit (s.take 4) && (s.take 4).length == 4 && (s.drop 4).take 1 == "-"
      && pyIsDigit ((s.drop 5).take 2) && ((s.drop 5).take 2).length == 2
      && (s.drop 7).take 1 == "-"
      && pyIsDigit ((s.drop 8).take 2) && ((s.drop 8).take 2).length == 2 then
    some (digitsToNat (s.take 4), digitsToNat ((s.drop 5).take 2),
      digitsToNat ((s.drop 8).take 2))
  else none

/-- `pd.to_datetime` on one cell: parses strings, passes already-converted
timestamps through unchanged. -/
def toDatetime : DateCell → Option (Nat × Nat × Nat)
  | DateCell.str s => parseISO s
  | DateCell.dt d => d

/-- Line 153, `raw_df['Date'] = pd.to_datetime(raw_df['Date'], errors='coerce')`,
on one row: the caller's `Date` cell is replaced by its parsed value. -/
def coerceRow (r : RawRow) : RawRow := { r with date := DateCell.dt (toDatetime r.date) }

/-- `Date.dt.year` of a cell (`none` on `NaT`; only coerced cells reach it). -/
def cellYear : DateCell → Option Nat
  | DateCell.str _ => none
  | DateCell.dt d => d.map fun t => t.1

/-- `Date.dt.to_period('M')` key of a cell (`none` on `NaT`). -/
def cellYearMonth : DateCell → Option (Nat × Nat)
  | DateCell.str _ => none
  | DateCell.dt d => d.map fun t => (t.1, t.2.1)

/-- Lines 161-164: group the filtered rows by `'Year-Month'`, take each group's
size, and sort by the period key (string order on `YYYY-MM` agrees with the
lexicographic order on the `(year, month)` pair). -/
def dmrPerMonth (rows : List RawRow) : List ℚ :=
  let keys := firstSeen (rows.filterMap fun r => cellYearMonth r.date)
  let sorted := List.insertionSort
    (fun a b : Nat × Nat => a.1 < b.1 ∨ (a.1 = b.1 ∧ a.2 ≤ b.2)) keys
  sorted.map fun k => ((rows.filter fun r => cellYearMonth r.date == some k).length : ℚ)

/-- `calculate_and_plot_pbc(vendor, year, raw_df)` (lines 152-186) as a
state-passing function: it returns the caller's dataframe as mutated by the
line-153 datetime coercion, together with the PBC computation on the monthly
series of the filtered vendor/year rows (`none` models the pandas
`ValueError` on an empty series, caught by the caller's `except`). -/
def calculate_and_plot_pbc (vendor : String) (year : Nat) (raw_df : List RawRow) :
    List RawRow × Option PBCResult :=
  let raw_df := raw_df.map coerceRow
  let vendor_data := raw_df.filter fun r => r.vendor == vendor && cellYear r.date == some year
  (raw_df, pbcEngine (dmrPerMonth vendor_data))

/-! ## General lemmas: `firstSeen`, `pyAbs` and association lists -/

theorem mem_firstSeenAux {α : Type} [DecidableEq α] (a : α) :
    ∀ (l seen : List α), a ∈ firstSeenAux seen l ↔ a ∈ l ∧ a ∉ seen := by
  intro l
  induction l with
  | nil => intro seen; simp [firstSeenAux]
  | cons x xs ih =>
    intro seen
    by_cases hx : x ∈ seen
    · simp only [firstSeenAux, if_pos hx, ih, List.mem_cons]
      constructor
      · rintro ⟨h1, h2⟩; exact ⟨Or.inr h1, h2⟩
      · rintro ⟨h1 | h1, h2⟩
        · exact absurd (h1 ▸ hx) h2
        · exact ⟨h1, h2⟩
    · simp only [firstSeenAux, if_neg hx, List.mem_cons, ih]
      by_cases hax : a = x
      · subst hax; simp [hx]
      · simp [hax]

theorem mem_firstSeen {α : Type} [DecidableEq α] (a : α) (l : List α) :
    a ∈ firstSeen l ↔ a ∈ l := by
  simp [firstSeen, mem_firstSeenAux]

theorem nodup_firstSeenAux {α : Type} [DecidableEq α] :
    ∀ (l seen : List α), (firstSeenAux seen l).Nodup := by
  intro l
  induction l with
  | nil => intro seen; simp [firstSeenAux]
  | cons x xs ih =>
    intro seen
    by_cases hx : x ∈ seen
    · simpa [firstSeenAux, if_pos hx] using ih seen
    · simp only [firstSeenAux, if_neg hx, List.nodup_cons]
      refine ⟨fun hmem => ?_, ih (x :: seen)⟩
      exact ((mem_firstSeenAux x xs (x :: seen)).mp hmem).2 (List.mem_cons_self x seen)

theorem nodup_firstSeen {α : Type} [DecidableEq α] (l : List α) :
    (firstSeen l).Nodup := nodup_firstSeenAux l []

/-- `pyAbs` agrees with the mathematical absolute value. -/
theorem pyAbs_eq_abs (q : ℚ) : pyAbs q = |q| := by
  by_cases h : q < 0
  · simp [pyAbs, h, abs_of_neg h]
  · simp [pyAbs, h, abs_of_nonneg (not_lt.mp h)]

/-- Key lookup in an association list built by tagging each key of `l` with
`f`: the model of reading back a dict built by a comprehension over `l`. -/
theorem lookup_map_self {α β : Type} [DecidableEq α] (l : List α) (f : α → β) (a : α) :
    List.lookup a (l.map fun x => (x, f x)) = if a ∈ l then some (f a) else none := by
  induction l with
  | nil => simp
  | cons x xs ih =>
    by_cases hax : a = x
    · subst hax; simp [List.lookup]
    · have hbeq : (a == x) = false := beq_false_of_ne hax
      simp [List.lookup, hbeq, ih, hax]

/-- Lookup in an association list whose values are rebuilt from the whole
entry: the model of mapping a function over a dict. -/
theorem lookup_map_pair {α β γ : Type} [DecidableEq α] (l : List (α × β)) (g : α × β → γ)
    (a : α) :
    List.lookup a (l.map fun p => (p.1, g p)) = (List.lookup a l).map fun b => g (a, b) := by
  induction l with
  | nil => simp
  | cons p l ih =>
    by_cases h : a = p.1
    · subst h; simp [List.lookup]
    · have hbeq : (a == p.1) = false := beq_false_of_ne h
      simp [List.lookup, hbeq, ih]

/-- Keys of an association list rebuilt by `lookup_map_pair`'s shape. -/
theorem keys_map_pair {α β γ : Type} (l : List (α × β)) (g : α × β → γ) :
    (l.map fun p => (p.1, g p)).map Prod.fst = l.map Prod.fst := by
  induction l with
  | nil => rfl
  | cons p l ih => simp only [List.map_cons, ih]

/-- Lookup in an association list built by keeping exactly the keys satisfying
a guard: the model of a loop that stores a computed value under the key only
when the guard holds and otherwise omits the key. -/
theorem lookup_filterMap_guard {α β : Type} [DecidableEq α] (l : List α) (p : α → Prop)
    [DecidablePred p] (f : α → β) (a : α) :
    List.lookup a (l.filterMap fun x => if p x then some (x, f x) else none)
      = if a ∈ l ∧ p a then some (f a) else none := by
  induction l with
  | nil => simp
  | cons x xs ih =>
    by_cases hpx : p x
    · by_cases hax : a = x
      · subst hax; simp [List.filterMap_cons, hpx, List.lookup]
      · have hbeq : (a == x) = false := beq_false_of_ne hax
        simp [List.filterMap_cons, hpx, List.lookup, hbeq, ih, hax]
    · by_cases hax : a = x
      · subst hax; simp [List.filterMap_cons, hpx, ih]
      · simp [List.filterMap_cons, hpx, ih, hax]

/-- Keys of the association lists built with `lookup_map_self`'s shape. -/
theorem keys_map_self {α β : Type} (l : List α) (f : α → β) :
    (l.map fun x => (x, f x)).map Prod.fst = l := by
  induction l with
  | nil => rfl
  | cons x xs ih => simp only [List.map_cons, ih]

end SQR

namespace SQR

/-! ## Claim C1 -/

/-- C1: on the input count series [5, 3, 8, 2] the PBC engine yields the
moving-range sequence [0, 2, 5, 6], `average_moving_ranges` equal to the
single last moving range 6, mean 4.5, `UPL = 4.5 + 2.66*6 = 20.46`,
`URL = 6 * 3.27 = 19.62`, and `LPL = 0` because the natural value
`4.5 − 15.96 = −11.46` is negative and is clamped to 0. -/
theorem C1_pbc_determinism :
    pbcEngine [5, 3, 8, 2] = some
      { movingRanges := [0, 2, 5, 6]
        averageMovingRanges := 6
        mean := some 4.5
        UPL := some 20.46
        LPL := some 0
        URL := 19.62 } := by
  norm_num [pbcEngine, pbcStats, movingRangesOf, meanOf, pyAbs]

/-! ## Claim C4 -/

/-- C4: for every non-empty input series, the engine's LPL is 0 when
`mean − 2.66 · avg_moving_range` is negative and otherwise is reassigned to
the mean itself, not kept at the computed lower limit. -/
theorem C4_lpl_clamps_to_zero_or_mean (counts : List ℚ) (h : counts ≠ []) :
    (pbcStats counts).LPL =
      some (if counts.sum / counts.length - 2.66 * (movingRangesOf counts).getLastD 0 < 0
        then 0 else counts.sum / counts.length) := by
  have hne : counts.isEmpty = false := by
    cases counts with
    | nil => exact absurd rfl h
    | cons x xs => rfl
  simp [pbcStats, meanOf, hne]

/-- C4 witness: the series [5, 3, 8, 2] is non-empty and its LPL follows the
clamp-or-mean rule. -/
theorem C4_witness :
    ([5, 3, 8, 2] : List ℚ) ≠ []
      ∧ (pbcStats [5, 3, 8, 2]).LPL =
        some (if ([5, 3, 8, 2] : List ℚ).sum / ([5, 3, 8, 2] : List ℚ).length
              - 2.66 * (movingRangesOf [5, 3, 8, 2]).getLastD 0 < 0
          then 0 else ([5, 3, 8, 2] : List ℚ).sum / ([5, 3, 8, 2] : List ℚ).length) :=
  ⟨by simp, C4_lpl_clamps_to_zero_or_mean [5, 3, 8, 2] (by simp)⟩

/-! ## Claim C8 -/

/-- C8 counterexample: on a vendor/year with zero data points the engine does
not complete — the moving-range column assignment (a length-1 list against a
0-row frame) raises, modelled by the `none` result — refuting the claim that
the zero-data-point computation completes rather than raising. -/
theorem C8_counterexample : pbcEngine ([] : List ℚ) = none := by
  norm_num [pbcEngine, movingRangesOf]

/-- C8 amended: for a single data point the engine returns a defined result
without raising and its moving-range sequence is [0]; for zero data points
the mean is NaN-equivalent (`meanOf [] = none`), but the moving-range column
assignment fails (length 1 against 0 rows) and the engine raises a
`ValueError` — caught by the presentation layer — instead of completing. -/
theorem C8_zero_or_one_point (c : ℚ) :
    (pbcEngine [c]).isSome = true
      ∧ (pbcEngine [c]).map PBCResult.movingRanges = some [0]
      ∧ meanOf [] = none
      ∧ pbcEngine ([] : List ℚ) = none := by
  refine ⟨?_, ?_, by simp [meanOf], by norm_num [pbcEngine, movingRangesOf]⟩
  · simp [pbcEngine, movingRangesOf]
  · simp [pbcEngine, movingRangesOf, pbcStats]

/-! ## Claim C2 -/

/-- In the assembled pipeline the PO year-count dict stores only positive
counts: every year key it holds was extracted from some PO date, so at least
one record matches it. -/
theorem generate_count_dict_year_pos (dates : List String) (y : String) (n : Nat)
    (h : (generate_count_dict_year dates
        (firstSeen ((firstSeen dates).map yearKey))).lookup y = some n) :
    0 < n := by
  rw [generate_count_dict_year, lookup_map_self] at h
  by_cases hy : y ∈ firstSeen ((firstSeen dates).map yearKey)
  · rw [if_pos hy] at h
    have hn : yearCount dates y = n := by injection h
    have hmem : y ∈ (firstSeen dates).map yearKey := (mem_firstSeen _ _).mp hy
    obtain ⟨d, hd, hdy⟩ := List.mem_map.mp hmem
    have hd' : d ∈ dates := (mem_firstSeen _ _).mp hd
    have hf : d ∈ dates.filter fun d => yearKey d == y := by
      simp [List.mem_filter, hd', hdy]
    have hpos := List.length_pos.mpr (List.ne_nil_of_mem hf)
    rw [← hn]
    simpa [yearCount] using hpos
  · rw [if_neg hy] at h; exact absurd h (by simp)

/-- C2 counterexample: feeding the year-ratio loop a DMR table {2023: 10} and
a PO table {2023: 0} — year present with count 0 — stores the unguarded
numpy division result `inf`, which is not the null value the claim requires. -/
theorem C2_counterexample :
    List.lookup "2023" (DMR_PO_perc_yr ["2023"] [("2023", 10)] [("2023", 0)])
        = some (some RNum.inf)
      ∧ some RNum.inf ≠ (none : Option RNum) := by
  constructor
  · norm_num [DMR_PO_perc_yr, List.lookup, pyDivRatio]
  · simp

/-- C2 amended: for every year of `dmrs_years` the stored year-level ratio is
null exactly when the year is absent from the PO year-count dict, and
otherwise is the unguarded division `(DMR count / PO count) × 100` (numpy
semantics: infinite, not null, on a present-but-zero denominator); moreover,
in the assembled pipeline every count the PO year-count dict stores is
positive, so there the division never meets a zero denominator and no
divide-by-zero fault is raised. -/
theorem C2_year_null_iff_missing (dmrs_years : List String)
    (DMRs_yrs_count PO_yrs_count : List (String × Nat)) (year : String)
    (h : year ∈ dmrs_years) (poDates : List String) (y : String) (n : Nat)
    (hpo : (generate_count_dict_year poDates
        (firstSeen ((firstSeen poDates).map yearKey))).lookup y = some n) :
    List.lookup year (DMR_PO_perc_yr dmrs_years DMRs_yrs_count PO_yrs_count)
        = some (match PO_yrs_count.lookup year with
          | some po => some (pyDivRatio ((DMRs_yrs_count.lookup year).getD 0 : ℚ) (po : ℚ))
          | none => none)
      ∧ 0 < n := by
  refine ⟨?_, generate_count_dict_year_pos poDates y n hpo⟩
  rw [DMR_PO_perc_yr, lookup_map_self, if_pos h]

/-- C2 witness: the amended statement instantiated at the one-year tables
{2023 ↦ 10} (DMR) and {2023 ↦ 4} (PO), with the pipeline count taken from
the single PO date "2023-01-01". -/
theorem C2_witness :
    ("2023" ∈ ["2023"]
      ∧ (generate_count_dict_year ["2023-01-01"]
          (firstSeen ((firstSeen ["2023-01-01"]).map yearKey))).lookup "2023" = some 1)
    ∧ (List.lookup "2023" (DMR_PO_perc_yr ["2023"] [("2023", 10)] [("2023", 4)])
        = some (match List.lookup "2023" [("2023", 4)] with
          | some po => some (pyDivRatio ((List.lookup "2023" [("2023", 10)]).getD 0 : ℚ) (po : ℚ))
          | none => none)
      ∧ 0 < 1) :=
  ⟨⟨by decide, by decide⟩,
    C2_year_null_iff_missing ["2023"] [("2023", 10)] [("2023", 4)] "2023" (by decide)
      ["2023-01-01"] "2023" 1 (by decide)⟩

/-! ## Claim C3 -/

/-- Every count stored in a `vendorCounts` table is positive: it is the size
of a group that contains at least the record whose year produced the key. -/
theorem vendorCounts_inner_pos (recs : List SrcRec) (v : String) (yl : List (Nat × Nat))
    (y c : Nat) (hv : (vendorCounts recs).lookup v = some yl) (hy : yl.lookup y = some c) :
    0 < c := by
  rw [vendorCounts, lookup_map_self] at hv
  by_cases hvm : v ∈ firstSeen ((recs.filter validYearRec).map SrcRec.vendor)
  · rw [if_pos hvm] at hv
    have hyl : ((firstSeen ((vendorRecs recs v).map recYear)).map fun y =>
        (y, ((vendorRecs recs v).filter fun r => recYear r == y).length)) = yl := by
      injection hv
    rw [← hyl, lookup_map_self] at hy
    by_cases hym : y ∈ firstSeen ((vendorRecs recs v).map recYear)
    · rw [if_pos hym] at hy
      have hc : ((vendorRecs recs v).filter fun r => recYear r == y).length = c := by
        injection hy
      have hmem : y ∈ (vendorRecs recs v).map recYear := (mem_firstSeen _ _).mp hym
      obtain ⟨r, hr, hry⟩ := List.mem_map.mp hmem
      have hf : r ∈ (vendorRecs recs v).filter fun r => recYear r == y := by
        simp [List.mem_filter, hr, hry]
      rw [← hc]
      exact List.length_pos.mpr (List.ne_nil_of_mem hf)
    · rw [if_neg hym] at hy; exact absurd hy (by simp)
  · rw [if_neg hvm] at hv; exact absurd hv (by simp)

/-- C3: at vendor granularity every (vendor, year) pair present in the DMR
vendor-count table receives an entry in the vendor ratio table — null exactly
when the pair is absent from the PO vendor-count table and the percentage
ratio otherwise (`vendorRatioVal`); no pair of the numerator table is
omitted, because the PO table's group-size counts are positive so the
omit-when-zero branch never fires. -/
theorem C3_vendor_pairs_never_omitted (dmrRecs poRecs : List SrcRec) (v : String) (y : Nat)
    (dmrYears : List (Nat × Nat)) (c : Nat)
    (hv : (vendorCounts dmrRecs).lookup v = some dmrYears)
    (hy : dmrYears.lookup y = some c) :
    ∃ inner : List (Nat × Option ℚ),
      (df_vendor_SQR_ratios dmrRecs poRecs).lookup v = some inner
        ∧ inner.lookup y = some (vendorRatioVal (vendorCounts poRecs) v (y, c)) := by
  rw [df_vendor_SQR_ratios, vendor_SQR_ratios, lookup_map_pair, hv]
  simp only [Option.map_some']
  refine ⟨_, rfl, ?_⟩
  have hcong : dmrYears.filterMap (vendorRatioCell (vendorCounts poRecs) v)
      = dmrYears.map fun p => (p.1, vendorRatioVal (vendorCounts poRecs) v p) := by
    rw [← List.filterMap_eq_map
      (fun p : Nat × Nat => (p.1, vendorRatioVal (vendorCounts poRecs) v p))]
    refine List.filterMap_congr fun a _ => ?_
    simp only [Function.comp]
    cases hpoV : (vendorCounts poRecs).lookup v with
    | none => simp [vendorRatioCell, vendorRatioVal, hpoV]
    | some poYears =>
      cases hpl : poYears.lookup a.1 with
      | none => simp [vendorRatioCell, vendorRatioVal, hpoV, hpl]
      | some po =>
        have hne : po ≠ 0 :=
          Nat.pos_iff_ne_zero.mp (vendorCounts_inner_pos poRecs v poYears a.1 po hpoV hpl)
        simp [vendorRatioCell, vendorRatioVal, hpoV, hpl, hne]
  rw [hcong, lookup_map_pair, hy]
  rfl

/-- C3 witness: vendor V has one 2023 DMR record; the PO stream has three V
records in 2023, so V's 2023 entry exists and is the 100/3 percentage. -/
theorem C3_witness :
    ((vendorCounts [(⟨"2023-01-01", "V"⟩ : SrcRec)]).lookup "V" = some [(2023, 1)]
      ∧ List.lookup 2023 [(2023, 1)] = some 1)
    ∧ ∃ inner : List (Nat × Option ℚ),
        (df_vendor_SQR_ratios [⟨"2023-01-01", "V"⟩]
            [⟨"2023-01-01", "V"⟩, ⟨"2023-02-01", "V"⟩, ⟨"2023-03-01", "V"⟩]).lookup "V"
          = some inner
        ∧ inner.lookup 2023
          = some (vendorRatioVal
              (vendorCounts [⟨"2023-01-01", "V"⟩, ⟨"2023-02-01", "V"⟩, ⟨"2023-03-01", "V"⟩])
              "V" (2023, 1)) :=
  ⟨⟨by decide, by decide⟩,
    C3_vendor_pairs_never_omitted [⟨"2023-01-01", "V"⟩]
      [⟨"2023-01-01", "V"⟩, ⟨"2023-02-01", "V"⟩, ⟨"2023-03-01", "V"⟩]
      "V" 2023 [(2023, 1)] 1 (by decide) (by decide)⟩

/-! ## Claim C5 -/

/-- C5: at month granularity, for every year common to the DMR and PO
month-count tables and every canonical month code, the result holds
`(DMR count / PO count) × 100` exactly when the PO count for that month is
non-zero, and the month key is simply omitted from that year's entry — no
null placeholder — when the PO count is zero. -/
theorem C5_month_zero_po_omitted (dmrDates poDates : List String) (year month : String)
    (hy : year ∈ (generate_count_dict_month dmrDates unique_months).map Prod.fst)
    (hp : year ∈ (generate_count_dict_month poDates unique_months).map Prod.fst)
    (hm : month ∈ unique_months) :
    ∃ inner : List (String × ℚ),
      (DMR_PO_perc_month_pipeline dmrDates poDates).lookup year = some inner
        ∧ (if monthCount poDates year month ≠ 0 then
            inner.lookup month = some ((monthCount dmrDates year month : ℚ)
              / (monthCount poDates year month : ℚ) * 100)
          else inner.lookup month = none) := by
  rw [generate_count_dict_month, keys_map_self] at hy hp
  have hpmlook : (generate_count_dict_month poDates unique_months).lookup year
      = some (unique_months.map fun m => (m, monthCount poDates year m)) := by
    rw [generate_count_dict_month, lookup_map_self, if_pos hp]
  have hdmlook : (generate_count_dict_month dmrDates unique_months).lookup year
      = some (unique_months.map fun m => (m, monthCount dmrDates year m)) := by
    rw [generate_count_dict_month, lookup_map_self, if_pos hy]
  have hmemsort : year ∈ sortedCommonYears (generate_count_dict_month dmrDates unique_months)
      (generate_count_dict_month poDates unique_months) := by
    rw [sortedCommonYears, List.mem_insertionSort, List.mem_filter]
    constructor
    · rw [mem_firstSeen, generate_count_dict_month, keys_map_self]
      exact hy
    · rw [hpmlook]; rfl
  refine ⟨monthRatioEntries (generate_count_dict_month dmrDates unique_months)
    (generate_count_dict_month poDates unique_months) year, ?_, ?_⟩
  · rw [DMR_PO_perc_month_pipeline, DMR_PO_perc_month, lookup_map_self, if_pos hmemsort]
  · have hinner : monthRatioEntries (generate_count_dict_month dmrDates unique_months)
        (generate_count_dict_month poDates unique_months) year
        = unique_months.filterMap fun m =>
            if monthCount poDates year m ≠ 0 then
              some (m, (monthCount dmrDates year m : ℚ) / (monthCount poDates year m : ℚ) * 100)
            else none := by
      rw [monthRatioEntries, hpmlook]
      simp only [Option.getD_some]
      rw [List.filterMap_map]
      refine List.filterMap_congr fun m hmem => ?_
      simp only [Function.comp]
      have hlook : (unique_months.map fun m => (m, monthCount poDates year m)).lookup m
          = some (monthCount poDates year m) := by
        rw [lookup_map_self, if_pos hmem]
      simp only [hlook]
      by_cases hz : monthCount poDates year m ≠ 0
      · rw [if_pos hz, if_pos hz, hdmlook]
        simp only [Option.getD_some]
        rw [lookup_map_self, if_pos hmem]
        rfl
      · rw [if_neg hz, if_neg hz]
    rw [hinner, lookup_filterMap_guard]
    by_cases hz : monthCount poDates year month ≠ 0
    · rw [if_pos hz, if_pos ⟨hm, hz⟩]
    · rw [if_neg hz, if_neg (by tauto)]

/-- C5 witness: DMR dates {2023-01} against PO dates {2023-02} — the claim's
§8 scenario — at year 2023 and month "01", where the PO count is zero. -/
theorem C5_witness :
    ("2023" ∈ (generate_count_dict_month ["2023-01-15"] unique_months).map Prod.fst
      ∧ "2023" ∈ (generate_count_dict_month ["2023-02-01"] unique_months).map Prod.fst
      ∧ "01" ∈ unique_months)
    ∧ ∃ inner : List (String × ℚ),
        (DMR_PO_perc_month_pipeline ["2023-01-15"] ["2023-02-01"]).lookup "2023" = some inner
          ∧ (if monthCount ["2023-02-01"] "2023" "01" ≠ 0 then
              inner.lookup "01" = some ((monthCount ["2023-01-15"] "2023" "01" : ℚ)
                / (monthCount ["2023-02-01"] "2023" "01" : ℚ) * 100)
            else inner.lookup "01" = none) :=
  ⟨⟨by decide, by decide, by decide⟩,
    C5_month_zero_po_omitted ["2023-01-15"] ["2023-02-01"] "2023" "01"
      (by decide) (by decide) (by decide)⟩

/-! ## Claim C6 -/

/-- C6 counterexample: with one DMR and three PO records for vendor V in
2023, the vendor SQR table's presented cell for (V, 2023) is the raw 100/3,
yet `round(100/3, 1) ≠ 100/3` — the vendor table is presented unrounded,
refuting the claim that every presented percentage equals `round(raw, 1)`. -/
theorem C6_counterexample :
    (df_vendor_SQR_ratios [⟨"2023-01-01", "V"⟩]
        [⟨"2023-01-01", "V"⟩, ⟨"2023-02-01", "V"⟩, ⟨"2023-03-01", "V"⟩]).lookup "V"
      = some [(2023, some (100/3 : ℚ))]
    ∧ round1 (100/3) ≠ (100/3 : ℚ) := by
  constructor
  · have h1 : vendorCounts [(⟨"2023-01-01", "V"⟩ : SrcRec)] = [("V", [(2023, 1)])] := by
      decide
    have h2 : vendorCounts
        [(⟨"2023-01-01", "V"⟩ : SrcRec), ⟨"2023-02-01", "V"⟩, ⟨"2023-03-01", "V"⟩]
        = [("V", [(2023, 3)])] := by
      decide
    rw [df_vendor_SQR_ratios, h1, h2]
    norm_num [vendor_SQR_ratios, vendorRatioCell, List.lookup, List.filterMap_cons]
  · norm_num [round1, roundHalfEven]

/-- C6 amended: the yearly and monthly tables are rounded to one decimal
before presentation (`df_yr`/`df_month` cells equal `round(raw, 1)` of the
raw pipeline ratios), but the vendor SQR table is presented unrounded and the
top-8 bar-chart ranking sorts the raw unrounded column values (descending),
every ranked entry being a raw cell of the vendor table's year column (its
labels are then formatted at two decimal places, not one). -/
theorem C6_round_only_year_month_tables (dmrDates poDates : List String)
    (dmrRecs poRecs : List SrcRec) (y : String) (yv : Nat) (e : String × ℚ)
    (he : e ∈ top8_SQRs (df_vendor_SQR_ratios dmrRecs poRecs) yv) :
    (df_yr dmrDates poDates).lookup y
        = (((DMR_PO_perc_yr_pipeline dmrDates poDates).filter fun yc =>
            pyIsDigit yc.1).lookup y).map (fun b => b.map roundCell1)
      ∧ (df_month dmrDates poDates).lookup y
        = ((DMR_PO_perc_month_pipeline dmrDates poDates).lookup y).map
            (List.map fun mc => (mc.1, round1 mc.2))
      ∧ List.Sorted (fun a b : String × ℚ => b.2 ≤ a.2)
          (top8_SQRs (df_vendor_SQR_ratios dmrRecs poRecs) yv)
      ∧ e ∈ vendorYearColumn (df_vendor_SQR_ratios dmrRecs poRecs) yv := by
  haveI htot : IsTotal (String × ℚ) (fun a b => b.2 ≤ a.2) := ⟨fun a b => le_total b.2 a.2⟩
  haveI htrans : IsTrans (String × ℚ) (fun a b => b.2 ≤ a.2) :=
    ⟨fun _ _ _ hab hbc => le_trans hbc hab⟩
  refine ⟨?_, ?_, ?_, ?_⟩
  · rw [df_yr, lookup_map_pair]
  · rw [df_month, lookup_map_pair]
  · rw [top8_SQRs]
    exact (List.sorted_insertionSort _ _).sublist (List.take_sublist _ _)
  · rw [top8_SQRs] at he
    exact (List.mem_insertionSort _).mp (List.take_subset _ _ he)

/-- C6 witness: the amended statement instantiated with the one-DMR /
three-PO vendor V streams, whose top-8 list for 2023 contains the raw cell
(V, 100/3). -/
theorem C6_witness :
    (("V", (100/3 : ℚ)) ∈ top8_SQRs (df_vendor_SQR_ratios [⟨"2023-01-01", "V"⟩]
        [⟨"2023-01-01", "V"⟩, ⟨"2023-02-01", "V"⟩, ⟨"2023-03-01", "V"⟩]) 2023)
    ∧ ((df_yr ["2023-01-01"] ["2023-01-01"]).lookup "2023"
          = (((DMR_PO_perc_yr_pipeline ["2023-01-01"] ["2023-01-01"]).filter fun yc =>
              pyIsDigit yc.1).lookup "2023").map (fun b => b.map roundCell1)
        ∧ (df_month ["2023-01-01"] ["2023-01-01"]).lookup "2023"
          = ((DMR_PO_perc_month_pipeline ["2023-01-01"] ["2023-01-01"]).lookup "2023").map
              (List.map fun mc => (mc.1, round1 mc.2))
        ∧ List.Sorted (fun a b : String × ℚ => b.2 ≤ a.2)
            (top8_SQRs (df_vendor_SQR_ratios [⟨"2023-01-01", "V"⟩]
              [⟨"2023-01-01", "V"⟩, ⟨"2023-02-01", "V"⟩, ⟨"2023-03-01", "V"⟩]) 2023)
        ∧ ("V", (100/3 : ℚ)) ∈ vendorYearColumn (df_vendor_SQR_ratios [⟨"2023-01-01", "V"⟩]
            [⟨"2023-01-01", "V"⟩, ⟨"2023-02-01", "V"⟩, ⟨"2023-03-01", "V"⟩]) 2023) :=
  have hmem : ("V", (100/3 : ℚ)) ∈ top8_SQRs (df_vendor_SQR_ratios [⟨"2023-01-01", "V"⟩]
      [⟨"2023-01-01", "V"⟩, ⟨"2023-02-01", "V"⟩, ⟨"2023-03-01", "V"⟩]) 2023 := by
    have h1 : vendorCounts [(⟨"2023-01-01", "V"⟩ : SrcRec)] = [("V", [(2023, 1)])] := by
      decide
    have h2 : vendorCounts
        [(⟨"2023-01-01", "V"⟩ : SrcRec), ⟨"2023-02-01", "V"⟩, ⟨"2023-03-01", "V"⟩]
        = [("V", [(2023, 3)])] := by
      decide
    rw [top8_SQRs, df_vendor_SQR_ratios, h1, h2]
    norm_num [vendor_SQR_ratios, vendorRatioCell, vendorYearColumn, List.lookup,
      List.insertionSort, List.orderedInsert, List.filterMap_cons]
  ⟨hmem, C6_round_only_year_month_tables ["2023-01-01"] ["2023-01-01"]
    [⟨"2023-01-01", "V"⟩] [⟨"2023-01-01", "V"⟩, ⟨"2023-02-01", "V"⟩, ⟨"2023-03-01", "V"⟩]
    "2023" 2023 ("V", (100/3 : ℚ)) hmem⟩

/-! ## Claim C7 -/

/-- C7: the row set of the vendor SQR table equals exactly the vendors
observed in the DMR stream — when every DMR record carries a digit year
prefix, the rows are the distinct DMR vendors in first-seen order, each
exactly once, and a vendor is a row precisely when some DMR record mentions
it; in particular a vendor appearing only in the PO stream gets no row even
though the PO vendor table supplies the denominators. -/
theorem C7_rows_are_dmr_vendor_set (dmrRecs poRecs : List SrcRec)
    (hvalid : ∀ r ∈ dmrRecs, validYearRec r = true) :
    (df_vendor_SQR_ratios dmrRecs poRecs).map Prod.fst
        = firstSeen (dmrRecs.map SrcRec.vendor)
      ∧ ((df_vendor_SQR_ratios dmrRecs poRecs).map Prod.fst).Nodup
      ∧ (∀ v : String, v ∈ (df_vendor_SQR_ratios dmrRecs poRecs).map Prod.fst
          ↔ ∃ r ∈ dmrRecs, r.vendor = v) := by
  have hfil : dmrRecs.filter validYearRec = dmrRecs := List.filter_eq_self.mpr hvalid
  have hkeys : (df_vendor_SQR_ratios dmrRecs poRecs).map Prod.fst
      = firstSeen (dmrRecs.map SrcRec.vendor) := by
    rw [df_vendor_SQR_ratios, vendor_SQR_ratios, keys_map_pair, vendorCounts,
      keys_map_self, hfil]
  refine ⟨hkeys, ?_, ?_⟩
  · rw [hkeys]; exact nodup_firstSeen _
  · intro v
    rw [hkeys, mem_firstSeen]
    simp [List.mem_map]

/-- C7 witness: one DMR record for vendor V and one PO-only vendor W — the
table's sole row is V. -/
theorem C7_witness :
    (∀ r ∈ [(⟨"2023-01-01", "V"⟩ : SrcRec)], validYearRec r = true)
    ∧ ((df_vendor_SQR_ratios [⟨"2023-01-01", "V"⟩] [⟨"2023-01-01", "W"⟩]).map Prod.fst
        = firstSeen ([(⟨"2023-01-01", "V"⟩ : SrcRec)].map SrcRec.vendor)
      ∧ ((df_vendor_SQR_ratios [⟨"2023-01-01", "V"⟩] [⟨"2023-01-01", "W"⟩]).map Prod.fst).Nodup
      ∧ (∀ v : String,
          v ∈ (df_vendor_SQR_ratios [⟨"2023-01-01", "V"⟩] [⟨"2023-01-01", "W"⟩]).map Prod.fst
          ↔ ∃ r ∈ [(⟨"2023-01-01", "V"⟩ : SrcRec)], r.vendor = v)) :=
  ⟨by decide, C7_rows_are_dmr_vendor_set [⟨"2023-01-01", "V"⟩] [⟨"2023-01-01", "W"⟩] (by decide)⟩

/-! ## Claim C9 -/

/-- C9 counterexample: `calculate_and_plot_pbc` does not leave its `raw_df`
argument unchanged — on a one-row frame whose `Date` cell is the string
"2023-01-05", the frame after the call holds a parsed datetime cell instead,
so a column of the caller's dataframe is modified. -/
theorem C9_counterexample :
    (calculate_and_plot_pbc "V" 2023 [⟨DateCell.str "2023-01-05", "V"⟩]).1
      ≠ [⟨DateCell.str "2023-01-05", "V"⟩] := by
  decide

/-- C9 amended: the call mutates the caller's frame exactly by coercing the
`Date` column to datetime (the returned frame is `raw_df.map coerceRow`),
leaving the vendor column untouched; and the computation is deterministic and
idempotent — re-running the call on the already-coerced frame returns the
identical frame and the identical series and limits, so caching stays safe. -/
theorem C9_frame_and_determinism (vendor : String) (year : Nat) (raw_df : List RawRow) :
    (calculate_and_plot_pbc vendor year raw_df).1 = raw_df.map coerceRow
      ∧ ((calculate_and_plot_pbc vendor year raw_df).1).map RawRow.vendor
          = raw_df.map RawRow.vendor
      ∧ calculate_and_plot_pbc vendor year (calculate_and_plot_pbc vendor year raw_df).1
          = calculate_and_plot_pbc vendor year raw_df := by
  refine ⟨rfl, by simp [calculate_and_plot_pbc, coerceRow], ?_⟩
  have hidem : ∀ r : RawRow, coerceRow (coerceRow r) = coerceRow r := by
    intro r; simp [coerceRow, toDatetime]
  simp only [calculate_and_plot_pbc, List.map_map]
  have hmm : raw_df.map (coerceRow ∘ coerceRow) = raw_df.map coerceRow :=
    List.map_congr_left fun a _ => hidem a
  rw [hmm]

/-! ## Claim C10 -/

/-- C10: `generate_unique_list` with option 'Year' returns the distinct
first-four-character year keys in first-seen order as claimed; but with
option 'Month' it returns those same year keys — its Month branch also
extracts `date_string[:4]` — rather than the month keys of the dates, so on
["2023-05-01", "2024-05-02", "2023-06-03"] it yields ["2023", "2024"]
instead of ["05", "06"]. -/
theorem C10_month_branch_returns_year_keys :
    generate_unique_list ["2023-05-01", "2024-05-02", "2023-06-03"] "Year"
        = some ["2023", "2024"]
      ∧ generate_unique_list ["2023-05-01", "2024-05-02", "2023-06-03"] "Month"
        = some ["2023", "2024"] := by
  constructor <;> decide

end SQR
